import Mathlib

/-!
Verification of the shop-bot core (`bot.py`) against its specification.

The development shallowly embeds the text-field extractors
(`parse_price`, `parse_sizes`, `parse_hashtags`, `first_line`), the
forward-import product normalizer, and the SQLite-backed data layer
(`add_product`, `get_cart`, `add_to_cart`, `clear_cart`, `create_order`,
`list_products`) as executable Lean functions over an explicit database
state, and proves the specified properties about them.

Modelling conventions:
* Strings are handled as `List Char`; Python regexes are embedded as
  specialized backtracking matchers that reproduce `re.search` /
  `re.fullmatch` / `re.findall` semantics (leftmost match, greedy
  quantifiers with backtracking, `re.IGNORECASE`, word boundaries) for
  the concrete patterns appearing in the source.
* Python's Unicode-aware `\w` / `\s` / `str.lower` are restricted to the
  alphabets the program's patterns and data involve: ASCII, the Cyrillic
  block А-я plus Ё/ё, and the characters appearing in the patterns
  themselves (`₽`, `–`, `#`, …).  All classifications agree with Python
  on these characters.
* A Python function that can raise is embedded with an `Option` result,
  `none` marking the raised exception.
* Machine integers are embedded as `Nat`/`Int`; no overflow is possible
  in the modelled paths (Python ints are unbounded).
-/

/-! ### Character classes (Python `\s`, `\d`, `\w`, lowercasing) -/

/-- Python `\s` on the characters in play (ASCII whitespace).  The code
replaces the only non-ASCII space it expects (NBSP) before matching. -/
def isPySpace (c : Char) : Bool :=
  c.toNat = 32 || c.toNat = 9 || c.toNat = 10 || c.toNat = 13 ||
    c.toNat = 11 || c.toNat = 12

/-- Python `\d` (ASCII decimal digits on the inputs in play). -/
def isDigitC (c : Char) : Bool :=
  48 ≤ c.toNat && c.toNat ≤ 57

/-- Python `\w` restricted to ASCII letters, digits, underscore and the
Cyrillic block А-я plus Ё/ё. -/
def isWordChar (c : Char) : Bool :=
  (48 ≤ c.toNat && c.toNat ≤ 57) || (65 ≤ c.toNat && c.toNat ≤ 90) ||
    (97 ≤ c.toNat && c.toNat ≤ 122) || c.toNat = 95 ||
    (0x410 ≤ c.toNat && c.toNat ≤ 0x44F) || c.toNat = 0x401 || c.toNat = 0x451

/-- Case folding used by `re.IGNORECASE` on ASCII and Cyrillic letters. -/
def pyLower (c : Char) : Char :=
  if 65 ≤ c.toNat ∧ c.toNat ≤ 90 then Char.ofNat (c.toNat + 32)
  else if 0x410 ≤ c.toNat ∧ c.toNat ≤ 0x42F then Char.ofNat (c.toNat + 0x20)
  else if c.toNat = 0x401 then Char.ofNat 0x451
  else c

/-- The NBSP replacement `text.replace(" ", " ")` from `parse_price` / `parse_sizes`. -/
def nbspFix (l : List Char) : List Char :=
  l.map (fun c => if c.toNat = 0xA0 then ' ' else c)

/-! ### Python string helpers (`strip`, `splitlines`) -/

/-- Python `str.strip()` (whitespace from both ends). -/
def pyStrip (l : List Char) : List Char :=
  ((l.dropWhile isPySpace).reverse.dropWhile isPySpace).reverse

/-- Split on a newline character, keeping empty segments. -/
def splitNLAux : List Char → List Char → List (List Char)
  | acc, [] => [acc.reverse]
  | acc, c :: rest =>
    if c = '\n' then acc.reverse :: splitNLAux [] rest
    else splitNLAux (c :: acc) rest

/-- Python `str.splitlines()` on the inputs in play (newline-separated):
`"" → []`, and a trailing empty segment after a final newline is dropped. -/
def pySplitlines (l : List Char) : List (List Char) :=
  if l = [] then []
  else
    let parts := splitNLAux [] l
    if parts.getLast? = some [] then parts.dropLast else parts

/-- Value of the digit characters of a list (Python `int(re.sub(r"[^\d]", "", x))`:
non-digits removed, the remaining decimal digits parsed). -/
def digitsVal (l : List Char) : Nat :=
  l.foldl (fun a c => if isDigitC c then a * 10 + (c.toNat - 48) else a) 0

/-- Case-insensitive literal match: the pattern (already lowercase) against
a prefix of the text; returns the remaining text on success. -/
def matchLitCI : List Char → List Char → Option (List Char)
  | [], l => some l
  | _ :: _, [] => none
  | p :: ps, c :: cs => if pyLower c = p then matchLitCI ps cs else none

/-- Whether the next character is a word character (`false` at the end of
the text); used for `\b` checks. -/
def nextIsWord : List Char → Bool
  | [] => false
  | c :: _ => isWordChar c

/-- The list `[n, n-1, ..., 0]`: the order in which a greedy `*` quantifier of
maximal match length `n` hands back characters while backtracking. -/
def descList (n : Nat) : List Nat :=
  (List.range (n + 1)).map (fun i => n - i)

/-! ### `parse_price` (bot.py lines 45-69)

Patterns (tried in order, `re.IGNORECASE`):
  1. `(?:цена[:\s]*)?(\d[\d\s\.]{1,12})\s?(?:₽|руб|руб\.|р)\b`
  2. `\b(\d[\d\s\.]{1,12})\s?(?:₽|руб|руб\.|р)\b`
then a per-line fallback `re.fullmatch(r"\s*\d[\d\s\.]{1,12}\s*", line.strip())`.
-/

/-- The character class `[\d\s\.]` of the price amount. -/
def numCls (c : Char) : Bool :=
  isDigitC c || isPySpace c || c = '.'

/-- One currency alternative: literal (lowercase) match followed by the
`\b` boundary check; `lastWord` is whether the literal ends in a word
character. -/
def curAlt (lit : List Char) (lastWord : Bool) (l : List Char) : Bool :=
  match matchLitCI lit l with
  | some r => lastWord != nextIsWord r
  | none => false

/-- The alternation `(?:₽|руб|руб\.|р)\b`, alternatives in pattern order. -/
def tryCurrency (l : List Char) : Bool :=
  curAlt ['₽'] false l || curAlt ['р', 'у', 'б'] true l ||
    curAlt ['р', 'у', 'б', '.'] false l || curAlt ['р'] true l

/-- The tail `\s?(?:₽|руб|руб\.|р)\b` after the amount group: the greedy optional
space is tried consumed first, then not consumed. -/
def afterGroupOk : List Char → Bool
  | [] => false
  | c :: r2 => (isPySpace c && tryCurrency r2) || tryCurrency (c :: r2)

/-- Greedy lengths `[12, ..., 1]` for the `{1,12}` quantifier. -/
def grpKs : List Nat := (List.range 12).map (fun i => 12 - i)

/-- The group `(\d[\d\s\.]{1,12})` followed by `\s?(?:₽|руб|руб\.|р)\b`,
starting at character `c`; returns the parsed digit value of the group. -/
def groupMatch (c : Char) (rest : List Char) : Option Nat :=
  if isDigitC c then
    grpKs.findSome? (fun k =>
      if decide (k ≤ rest.length) && (rest.take k).all numCls &&
          afterGroupOk (rest.drop k) then
        some (digitsVal (c :: rest.take k))
      else none)
  else none

/-- Pattern body (group + currency) at the current position. -/
def bodyAt : List Char → Option Nat
  | [] => none
  | c :: rest => groupMatch c rest

/-- The class `[:\s]` of the optional label separator. -/
def sepColonSpace (c : Char) : Bool :=
  c = ':' || isPySpace c

/-- Pattern 1 anchored at the current position: the optional greedy prefix
`(?:цена[:\s]*)?` is tried with the label (separator run from longest to
shortest) before the empty alternative. -/
def matchP1At (l : List Char) : Option Nat :=
  match
    (match matchLitCI ['ц', 'е', 'н', 'а'] l with
     | some rest =>
       let m := (rest.takeWhile sepColonSpace).length
       (descList m).findSome? (fun j => bodyAt (rest.drop j))
     | none => none)
  with
  | some v => some v
  | none => bodyAt l

/-- Search (`re.search`) of pattern 1: leftmost position wins. -/
def searchP1 : List Char → Option Nat
  | [] => none
  | c :: rest =>
    match matchP1At (c :: rest) with
    | some v => some v
    | none => searchP1 rest

/-- Search (`re.search`) of pattern 2: as pattern 1 without the label but with a
leading `\b` (the previous character must not be a word character, since
the first group character is a digit). -/
def searchP2 : Bool → List Char → Option Nat
  | _, [] => none
  | prevWord, c :: rest =>
    match (if prevWord then none else bodyAt (c :: rest)) with
    | some v => some v
    | none => searchP2 (isWordChar c) rest

/-- The fallback check `re.fullmatch(r"\s*\d[\d\s\.]{1,12}\s*", line.strip())`: on a stripped
line the outer `\s*` must be empty, leaving a digit plus 1-12 characters
of `[\d\s\.]`. -/
def numLineOk : List Char → Bool
  | [] => false
  | c :: rest =>
    isDigitC c && decide (1 ≤ rest.length) && decide (rest.length ≤ 12) &&
      rest.all numCls

/-- Function `parse_price` (bot.py 45-69): price in kopecks, or `none`.  The
`num.isdigit()` guard in the source is always true on a matched group
(it starts with a digit), so the matched value is returned directly. -/
def parse_price (s : String) : Option Nat :=
  if s = "" then none
  else
    let t := nbspFix s.data
    match searchP1 t with
    | some v => some (v * 100)
    | none =>
      match searchP2 false t with
      | some v => some (v * 100)
      | none =>
        (pySplitlines t).findSome? (fun line =>
          if numLineOk (pyStrip line) then some (digitsVal line * 100)
          else none)

/-! ### `parse_sizes` (bot.py lines 71-88)

Pattern (`re.IGNORECASE`):
  `(?:размеры?|sizes?)\s*[:\-–]\s*([A-Za-zА-Яа-я0-9 ,\/\-]+)`
then a per-line fallback
  `re.fullmatch(r"\s*(?:[A-Za-zА-Яа-я0-9]{1,3}[\s,\/\-]+){1,10}[A-Za-zА-Яа-я0-9]{1,3}\s*", line.strip())`.
-/

/-- The group class `[A-Za-zА-Яа-я0-9 ,\/\-]` (А-Яа-я is the contiguous
block U+0410-U+044F, without Ё/ё). -/
def sizeGrpCls (c : Char) : Bool :=
  (65 ≤ c.toNat && c.toNat ≤ 90) || (97 ≤ c.toNat && c.toNat ≤ 122) ||
    isDigitC c || (0x410 ≤ c.toNat && c.toNat ≤ 0x44F) ||
    c = ' ' || c = ',' || c = '/' || c = '-'

/-- The token class `[A-Za-zА-Яа-я0-9]` of the fallback line grammar. -/
def sizeTokCls (c : Char) : Bool :=
  (65 ≤ c.toNat && c.toNat ≤ 90) || (97 ≤ c.toNat && c.toNat ≤ 122) ||
    isDigitC c || (0x410 ≤ c.toNat && c.toNat ≤ 0x44F)

/-- The separator class `[\s,\/\-]` of the fallback line grammar. -/
def sizeSepCls (c : Char) : Bool :=
  isPySpace c || c = ',' || c = '/' || c = '-'

/-- Label alternation `(?:размеры?|sizes?)` in backtracking order
(the greedy optional last letter is tried consumed first). -/
def sizesLabels : List (List Char) :=
  [['р', 'а', 'з', 'м', 'е', 'р', 'ы'], ['р', 'а', 'з', 'м', 'е', 'р'],
   ['s', 'i', 'z', 'e', 's'], ['s', 'i', 'z', 'e']]

/-- After the label: `\s*[:\-–]\s*(group)`.  The first `\s*` must stop
exactly at the delimiter (the delimiter characters are not whitespace);
the second `\s*` backtracks from its maximal run, and the greedy group
needs at least one class character. -/
def sizesAfterLabel (rest : List Char) : Option (List Char) :=
  let m := (rest.takeWhile isPySpace).length
  match rest.drop m with
  | [] => none
  | d :: r3 =>
    if d = ':' || d = '-' || d = '–' then
      let m2 := (r3.takeWhile isPySpace).length
      (descList m2).findSome? (fun j =>
        let g := r3.drop j
        let run := (g.takeWhile sizeGrpCls).length
        if 1 ≤ run then some (g.take run) else none)
    else none

/-- The full sizes pattern anchored at the current position. -/
def matchSizesAt (l : List Char) : Option (List Char) :=
  sizesLabels.findSome? (fun lab =>
    match matchLitCI lab l with
    | some rest => sizesAfterLabel rest
    | none => none)

/-- Search (`re.search`) of the sizes pattern: leftmost position wins. -/
def searchSizes : List Char → Option (List Char)
  | [] => none
  | c :: rest =>
    match matchSizesAt (c :: rest) with
    | some g => some g
    | none => searchSizes rest

/-- The substitution `re.sub(r"\s+", " ", x)`: collapse whitespace runs to one space. -/
def collapseWsAux : Bool → List Char → List Char
  | _, [] => []
  | prevSp, c :: rest =>
    if isPySpace c then
      if prevSp then collapseWsAux true rest
      else ' ' :: collapseWsAux true rest
    else c :: collapseWsAux false rest

def collapseWs (l : List Char) : List Char := collapseWsAux false l

/-- The fallback line grammar
`(?:[tok]{1,3}[sep]+){1,10}[tok]{1,3}` matched in full: the token and
separator classes are disjoint, so the decomposition into maximal runs is
forced — tokens are maximal runs of 1-3 class characters separated by
nonempty separator runs, 2 to 11 tokens in total.  `fuel` bounds the
recursion by the length of the line. -/
def sizeGo : Nat → List Char → Nat → Bool
  | 0, _, _ => false
  | fuel + 1, l, n =>
    let a := (l.takeWhile sizeTokCls).length
    if a = 0 ∨ 3 < a then false
    else
      let l2 := l.drop a
      if l2.isEmpty then decide (2 ≤ n + 1) && decide (n + 1 ≤ 11)
      else
        let s := (l2.takeWhile sizeSepCls).length
        if s = 0 then false else sizeGo fuel (l2.drop s) (n + 1)

def sizeLineOk (l : List Char) : Bool := sizeGo (l.length + 1) l 0

/-- Function `parse_sizes` (bot.py 71-88): the sizes descriptor string, or `none`. -/
def parse_sizes (s : String) : Option String :=
  if s = "" then none
  else
    let t := nbspFix s.data
    match searchSizes t with
    | some g => some (String.mk ((collapseWs (pyStrip g)).take 120))
    | none =>
      (pySplitlines t).findSome? (fun line =>
        let st := pyStrip line
        if sizeLineOk st then some (String.mk (st.take 120)) else none)

/-! ### `parse_hashtags` (bot.py lines 90-94) and `first_line` (96-99) -/

/-- The scan `re.findall(r"#([\w\d_]+)", text)` as a left-to-right scan.  The state
`some t` holds the reversed word characters collected since the last `#`;
a match is emitted when the collected run is nonempty and ends. -/
def tagsAux : Option (List Char) → List Char → List (List Char)
  | none, [] => []
  | some t, [] => if t.isEmpty then [] else [t.reverse]
  | none, c :: rest =>
    if c = '#' then tagsAux (some []) rest else tagsAux none rest
  | some t, c :: rest =>
    if isWordChar c then tagsAux (some (c :: t)) rest
    else
      (if t.isEmpty then [] else [t.reverse]) ++
        (if c = '#' then tagsAux (some []) rest else tagsAux none rest)

def findTags (l : List Char) : List (List Char) := tagsAux none l

/-- Function `parse_hashtags` (bot.py 90-94): the matched tags, each stripped, the
falsy (empty after strip) ones dropped. -/
def parse_hashtags (s : String) : List String :=
  if s = "" then []
  else
    (findTags s.data).filterMap (fun t =>
      let st := pyStrip t
      if st.isEmpty then none else some (String.mk st))

/-- The spec's words for `extract_tags`: all `#`-prefixed word-character
substrings, in order of first appearance, duplicates retained. -/
def extract_tags_spec (s : String) : List String :=
  (findTags s.data).map String.mk

/-- Function `first_line` (bot.py 96-99): `text.strip().splitlines()[0][:128]` with
a placeholder for the empty string.  `none` models the `IndexError`
raised by the `[0]` indexing when `splitlines` returns no lines. -/
def first_line (s : String) : Option String :=
  if s = "" then some "Товар"
  else
    match pySplitlines (pyStrip s.data) with
    | [] => none
    | l :: _ => some (String.mk (l.take 128))

/-! ### Data model (bot.py lines 101-160) -/

/-- The `Product` dataclass / `products` table row (bot.py 101-129). -/
structure Product where
  id : Nat
  title : String
  price : Nat
  photo_file_id : Option String
  descr : Option String
  category : String
  brand : String
  sizes : Option String
  source_chat_id : Option Int
  source_msg_id : Option Int
deriving DecidableEq

/-- A `cart` table row (bot.py 133-138). -/
structure CartRow where
  user_id : Nat
  product_id : Nat
  qty : Nat
deriving DecidableEq

/-- An `orders` table row (bot.py 146-152; the timestamp is not modelled). -/
structure OrderRow where
  id : Nat
  user_id : Nat
  total_price : Nat
  status : String
deriving DecidableEq

/-- An `order_items` table row (bot.py 154-159). -/
structure OrderItemRow where
  order_id : Nat
  product_id : Nat
  qty : Nat
  price : Nat
deriving DecidableEq

/-- The persistent store: the tables of `store.db` plus the AUTOINCREMENT
counters supplying the next primary key. -/
structure DBState where
  products : List Product
  nextProductId : Nat
  cart : List CartRow
  orders : List OrderRow
  nextOrderId : Nat
  order_items : List OrderItemRow
deriving DecidableEq

/-! ### `add_product` (bot.py lines 168-183)

`INSERT OR IGNORE` with the unique index
`idx_source_msg ON products(source_chat_id, source_msg_id)` (line 131).
In SQLite a NULL in an indexed column never conflicts, so the insert is
ignored exactly when both source fields of the new row are non-NULL and
an existing row carries the same pair.  On the ignored insert
`cur.lastrowid` is falsy and the id is re-fetched with
`SELECT id FROM products WHERE source_chat_id IS ? AND source_msg_id IS ?`.
-/

/-- The unique-index conflict test between the incoming product and an
existing row: both pairs fully non-NULL and equal. -/
def srcConflict (p q : Product) : Bool :=
  match p.source_chat_id, p.source_msg_id, q.source_chat_id, q.source_msg_id with
  | some a, some b, some c, some d => decide (a = c) && decide (b = d)
  | _, _, _, _ => false

/-- The `IS`-comparison of the recovery `SELECT` (NULL-safe equality). -/
def srcSelectPred (p q : Product) : Bool :=
  q.source_chat_id == p.source_chat_id && q.source_msg_id == p.source_msg_id

/-- Function `add_product` (bot.py 168-183): returns the id and the new state. -/
def add_product (s : DBState) (p : Product) : Nat × DBState :=
  if s.products.any (fun q => srcConflict p q) then
    match s.products.find? (fun q => srcSelectPred p q) with
    | some q => (q.id, s)
    | none => (0, s)
  else
    let pid := s.nextProductId
    (pid,
      { s with
        products := s.products ++ [{ p with id := pid }],
        nextProductId := pid + 1 })

/-! ### Cart and orders (bot.py lines 238-292) -/

/-- One row of the `get_cart` join `SELECT p.id, p.title, p.price, c.qty`. -/
structure CartLine where
  pid : Nat
  title : String
  price : Nat
  qty : Nat
deriving DecidableEq

/-- Function `get_cart` (bot.py 238-245): the user's cart rows joined against the
`products` table; a cart row with no matching product id produces no
line.  Rows are produced in cart-table order. -/
def get_cart (s : DBState) (uid : Nat) : List CartLine :=
  s.cart.filterMap (fun c =>
    if c.user_id = uid then
      (s.products.find? (fun p => p.id == c.product_id)).map
        (fun p => ⟨p.id, p.title, p.price, c.qty⟩)
    else none)

/-- Function `add_to_cart` (bot.py 247-254): insert at quantity 1 or, on the
`(user_id, product_id)` primary-key conflict, increment the quantity. -/
def add_to_cart (s : DBState) (uid pid : Nat) : DBState :=
  if s.cart.any (fun c => c.user_id == uid && c.product_id == pid) then
    { s with
      cart := s.cart.map (fun c =>
        if c.user_id == uid && c.product_id == pid then
          { c with qty := c.qty + 1 }
        else c) }
  else
    { s with cart := s.cart ++ [⟨uid, pid, 1⟩] }

/-- Function `clear_cart` (bot.py 256-259): `DELETE FROM cart WHERE user_id=?`. -/
def clear_cart (s : DBState) (uid : Nat) : DBState :=
  { s with cart := s.cart.filter (fun c => c.user_id != uid) }

/-- The total `total = sum(price * qty for _, _, price, qty in items)` (bot.py 279). -/
def cart_total (items : List CartLine) : Nat :=
  (items.map (fun it => it.price * it.qty)).sum

/-- The single-connection block of `create_order` (bot.py 280-290): insert
the order row, then one `order_items` row per cart line, and commit. -/
def order_insert (s : DBState) (uid : Nat) (items : List CartLine)
    (total : Nat) : Nat × DBState :=
  let oid := s.nextOrderId
  (oid,
    { s with
      orders := s.orders ++ [⟨oid, uid, total, "NEW"⟩],
      nextOrderId := oid + 1,
      order_items :=
        s.order_items ++ items.map (fun it => ⟨oid, it.pid, it.qty, it.price⟩) })

/-- Function `create_order` (bot.py 275-292): read the cart, return `none` if it is
empty, otherwise insert the order and its items and then clear the cart.
The read, the insert and the clear are three separate database
connections in the source; the sequential composition is modelled here
and the individual steps are exposed for interleaving. -/
def create_order (s : DBState) (uid : Nat) : Option (Nat × Nat) × DBState :=
  let items := get_cart s uid
  if items.isEmpty then (none, s)
  else
    let total := cart_total items
    let (oid, s2) := order_insert s uid items total
    let s3 := clear_cart s2 uid
    (some (oid, total), s3)

/-- The write half of one checkout call: what `create_order` executes
after its cart read returned `items` (bot.py 277-291).  Used to express
interleavings of two concurrent checkouts. -/
def checkout_steps (s : DBState) (uid : Nat) (items : List CartLine) : DBState :=
  if items.isEmpty then s
  else
    let (_, s2) := order_insert s uid items (cart_total items)
    clear_cart s2 uid

/-! ### `list_products` (bot.py lines 197-227) -/

/-- The optional filters of `list_products`; `category`, `brand` and
`size_query` participate only when truthy (non-empty), the price bounds
whenever present (`is not None`). -/
structure ProductFilter where
  category : Option String := none
  brand : Option String := none
  price_from : Option Nat := none
  price_to : Option Nat := none
  size_query : Option String := none

/-- Python truthiness of an optional string: `some ""` acts as `none`. -/
def truthyStr : Option String → Option String
  | some t => if t = "" then none else some t
  | none => none

/-- SQLite ASCII-case-insensitive folding used by `LIKE`. -/
def sqlLower (l : List Char) : List Char :=
  l.map (fun c => if 65 ≤ c.toNat ∧ c.toNat ≤ 90 then Char.ofNat (c.toNat + 32) else c)

/-- Substring containment of character lists. -/
def isSubSeg (pat : List Char) : List Char → Bool
  | [] => pat.isPrefixOf []
  | c :: rest => pat.isPrefixOf (c :: rest) || isSubSeg pat rest

/-- The clause `sizes LIKE '%q%'`: substring containment, ASCII case-insensitive; a
NULL `sizes` column never satisfies the predicate. -/
def likeContains (q : String) (v : Option String) : Bool :=
  match v with
  | some sv => isSubSeg (sqlLower q.data) (sqlLower sv.data)
  | none => false

/-- The AND-combined WHERE clause of `list_products` (bot.py 204-220). -/
def rowPass (f : ProductFilter) (p : Product) : Bool :=
  (match truthyStr f.category with
   | some c => p.category == c
   | none => true) &&
  (match truthyStr f.brand with
   | some b => p.brand == b
   | none => true) &&
  (match f.price_from with
   | some v => decide (v ≤ p.price)
   | none => true) &&
  (match f.price_to with
   | some v => decide (p.price ≤ v)
   | none => true) &&
  (match truthyStr f.size_query with
   | some q => likeContains q p.sizes
   | none => true)

/-- The ordering `ORDER BY id DESC`: newest (largest id) first. -/
def prodDescId (a b : Product) : Prop := b.id ≤ a.id

instance : DecidableRel prodDescId := fun a b => Nat.decLe b.id a.id

instance : IsTotal Product prodDescId :=
  ⟨fun a b => Nat.le_total b.id a.id⟩

instance : IsTrans Product prodDescId :=
  ⟨fun _ _ _ hab hbc => le_trans hbc hab⟩

/-- Function `list_products` (bot.py 197-227): filter, sort by id descending, then
`LIMIT ? OFFSET ?`. -/
def list_products (s : DBState) (f : ProductFilter) (offset limit : Nat) :
    List Product :=
  ((List.insertionSort prodDescId (s.products.filter (rowPass f))).drop
      offset).take limit

/-! ### The forward-import normalizer (bot.py lines 593-635) -/

/-- The fields of an inbound forwarded post that `import_from_forward`
consumes: `caption = msg.caption or msg.text or ""`, the photo file id,
and the forward-origin identifiers. -/
structure RawPost where
  caption : String
  photo_file_id : Option String
  forward_chat_id : Option Int
  forward_msg_id : Option Int

/-- The `Product` built by `import_from_forward` (bot.py 602-634) before
`add_product`: category/brand from the first two hashtags with sentinel
defaults, title from `first_line`, price from `parse_price` with default
0, sizes from `parse_sizes`, the caption as description, and the forward
origin (when truthy) as the source identity.  `none` models the
`IndexError` that `first_line` raises on whitespace-only captions. -/
def import_product (post : RawPost) : Option Product :=
  let caption := post.caption
  let tags := parse_hashtags caption
  let category := match tags with
    | t :: _ => t
    | [] => "Общее"
  let brand := match tags with
    | _ :: t :: _ => t
    | _ => "NoBrand"
  match first_line caption with
  | none => none
  | some title =>
    let price := (parse_price caption).getD 0
    let sizes := parse_sizes caption
    let src : Option Int × Option Int :=
      match post.forward_chat_id with
      | some cid =>
        if cid ≠ 0 then
          (some cid,
            match post.forward_msg_id with
            | some mid => if mid ≠ 0 then some mid else none
            | none => none)
        else (none, none)
      | none => (none, none)
    some
      { id := 0, title := title, price := price,
        photo_file_id := post.photo_file_id, descr := some caption,
        category := category, brand := brand, sizes := sizes,
        source_chat_id := src.1, source_msg_id := src.2 }

/-! ### Concrete inputs used by the scenario claims -/

/-- The ingestion scenario text from the specification. -/
def scenarioText : String :=
  "#Jackets #Nike\nWinter Jacket\nЦена: 4 990 ₽\nРазмеры: S, M, L"

/-- The scenario post: the text forwarded from channel 7, message 42. -/
def scenarioPost : RawPost := ⟨scenarioText, none, some 7, some 42⟩

/-- An empty store (fresh `store.db` after `init_db`). -/
def emptyDB : DBState := ⟨[], 1, [], [], 1, []⟩

/-- A store with one product (id 1, price 100 kopecks) and one cart entry
of quantity 1 for user 1. -/
def raceS0 : DBState :=
  ⟨[⟨1, "Shirt", 100, none, none, "Общее", "NoBrand", none, none, none⟩], 2,
   [⟨1, 1, 1⟩], [], 1, []⟩

/-- A product carrying the spec's example source identity (7, 42). -/
def specimenProduct : Product :=
  ⟨0, "Товар", 499000, none, none, "Общее", "NoBrand", none, some 7, some 42⟩

/-- A store whose only cart entry references a product id (99) that has
no product row. -/
def danglingDB : DBState := ⟨[], 1, [⟨1, 99, 2⟩], [], 1, []⟩

/-- A catalog of eight products with distinct ids for the pagination
witness. -/
def pagingDB : DBState :=
  ⟨(List.range 8).map (fun i =>
      ⟨i + 1, "P", 100 * (i + 1), none, none, "Общее", "NoBrand", none,
        none, none⟩),
    9, [], [], 1, []⟩

/-- C5: it is not the case that every numeric amount directly followed by
a currency token is parsed: `"4 990 ₽"` — the docstring's own example —
and `"5₽"` both yield `none`, because the trailing `\b` of the price
patterns fails after `₽` (a non-word character) unless a word character
follows, and a single digit cannot fill `\d[\d\s\.]{1,12}`.  Amounts
marked `руб`/`р` parse as amount×100. -/
theorem parse_price_currency_marked_miss :
    parse_price "4 990 ₽" = none ∧ parse_price "5₽" = none ∧
      parse_price "4 990 ₽x" = some 499000 ∧
      parse_price "4990 руб" = some 499000 ∧
      parse_price "Цена: 4 990 ₽" = none := by
  decide

/-- C6: the scenario text does not normalize to the claimed product: the
title is the literal first line `"#Jackets #Nike"` (not `"Winter
Jacket"`) and the price is 0 (`parse_price` finds no match in
`"Цена: 4 990 ₽"`). -/
theorem import_scenario_ne_claimed :
    (import_product scenarioPost).map (fun p => (p.title, p.price)) ≠
      some ("Winter Jacket", 499000) := by
  decide

/-- C6 (amended): normalizing the scenario text produces category
`"Jackets"`, brand `"Nike"`, title `"#Jackets #Nike"` (the first line),
price 0 minor units (the price pattern fails on `"4 990 ₽"`), sizes
`"S, M, L"`, the caption as description and the forward origin as the
source identity. -/
theorem import_scenario_eq :
    import_product scenarioPost =
      some
        { id := 0, title := "#Jackets #Nike", price := 0,
          photo_file_id := none, descr := some scenarioText,
          category := "Jackets", brand := "Nike", sizes := some "S, M, L",
          source_chat_id := some 7, source_msg_id := some 42 } := by
  decide

/-- C7: the extractors are not all total: `first_line` raises `IndexError`
(modelled `none`) on a whitespace-only input — `"   ".strip()` is empty,
`splitlines()` of it is `[]`, and the `[0]` indexing fails.  The guard in
the source only covers the empty string, which returns the placeholder. -/
theorem first_line_whitespace_raises :
    first_line "   " = none ∧ first_line "" = some "Товар" ∧
      first_line "\n\n" = none := by
  decide

/-- C4: the read-compute-insert-clear sequence of `create_order` runs on
three separate connections with no transaction or lock, so interleaving
two checkouts for user 1 — both reads of the one-item cart first, then
each call's insert-and-clear — creates two orders from the same cart
snapshot, not exactly one.  Sequentially the same state yields a single
order, confirming both interleaved calls follow the code's own steps. -/
theorem create_order_checkout_race :
    (checkout_steps (checkout_steps raceS0 1 (get_cart raceS0 1)) 1
        (get_cart raceS0 1)).orders.length = 2 ∧
      ((checkout_steps (checkout_steps raceS0 1 (get_cart raceS0 1)) 1
          (get_cart raceS0 1)).orders.map (fun o => o.total_price)) =
        [100, 100] ∧
      (create_order raceS0 1).1 = some (1, 100) ∧
      (create_order raceS0 1).2 =
        checkout_steps raceS0 1 (get_cart raceS0 1) := by
  decide

/-! ### Lemmas about the store operations -/

/-- With both source fields non-null, the unique-index conflict test and
the recovery-`SELECT` predicate agree. -/
theorem srcConflict_eq_select (p : Product) (a b : Int)
    (hc : p.source_chat_id = some a) (hm : p.source_msg_id = some b)
    (q : Product) : srcConflict p q = srcSelectPred p q := by
  rcases hq1 : q.source_chat_id with _ | c
  · rcases hq2 : q.source_msg_id with _ | d <;>
      simp [srcConflict, srcSelectPred, hc, hm, hq1, hq2]
  · rcases hq2 : q.source_msg_id with _ | d
    · simp [srcConflict, srcSelectPred, hc, hm, hq1, hq2]
    · simp only [srcConflict, srcSelectPred, hc, hm, hq1, hq2]
      show (decide (a = c) && decide (b = d)) = (decide (c = a) && decide (d = b))
      rw [decide_eq_decide.mpr (eq_comm : (a = c) ↔ (c = a)),
        decide_eq_decide.mpr (eq_comm : (b = d) ↔ (d = b))]

/-- After `clear_cart`, the user's cart reads back empty. -/
theorem get_cart_clear_cart (s : DBState) (uid : Nat) :
    get_cart (clear_cart s uid) uid = [] := by
  rw [get_cart, List.filterMap_eq_nil_iff]
  intro c hc
  rw [clear_cart] at hc
  simp only [List.mem_filter, bne_iff_ne, ne_eq] at hc
  simp [hc.2]

/-- After `clear_cart`, no cart rows of the user remain. -/
theorem clear_cart_rows (s : DBState) (uid : Nat) :
    (clear_cart s uid).cart.filter (fun c => c.user_id == uid) = [] := by
  rw [clear_cart, List.filter_eq_nil_iff]
  intro c hc
  simp only [List.mem_filter, bne_iff_ne, ne_eq] at hc
  simp [hc.2]

/-- C3: checking out an empty cart snapshot returns `none`, inserts no
order and no order items, and leaves the whole store unchanged. -/
theorem create_order_empty_cart (s : DBState) (uid : Nat)
    (h : get_cart s uid = []) : create_order s uid = (none, s) := by
  simp [create_order, h]

/-- C3 witness: the empty store. -/
theorem create_order_empty_cart_witness :
    get_cart emptyDB 1 = [] ∧ create_order emptyDB 1 = (none, emptyDB) :=
  ⟨by decide, create_order_empty_cart emptyDB 1 (by decide)⟩

/-- C2: checkout on a nonempty cart snapshot returns the fresh order id
and the snapshot total Σ(price×qty); afterwards the user's cart reads
back empty and holds no rows, an order row with exactly that total
exists, and the order's items sum (price×qty) to the total.  `hfresh` is
the AUTOINCREMENT invariant that no existing item row already carries the
next order id. -/
theorem create_order_checkout_correct (s : DBState) (uid : Nat)
    (hne : get_cart s uid ≠ [])
    (hfresh : ∀ it ∈ s.order_items, it.order_id ≠ s.nextOrderId) :
    ∃ s3, create_order s uid
        = (some (s.nextOrderId, cart_total (get_cart s uid)), s3)
      ∧ get_cart s3 uid = []
      ∧ s3.cart.filter (fun c => c.user_id == uid) = []
      ∧ (∃ o ∈ s3.orders, o.id = s.nextOrderId
            ∧ o.total_price = cart_total (get_cart s uid))
      ∧ ((s3.order_items.filter
            (fun it => it.order_id == s.nextOrderId)).map
              (fun it => it.price * it.qty)).sum
          = cart_total (get_cart s uid) := by
  have hb : (get_cart s uid).isEmpty = false := by
    cases hg : get_cart s uid
    · exact absurd hg hne
    · rfl
  refine ⟨clear_cart (order_insert s uid (get_cart s uid)
      (cart_total (get_cart s uid))).2 uid, ?_, ?_, ?_, ?_, ?_⟩
  · simp [create_order, hb, order_insert]
  · exact get_cart_clear_cart _ uid
  · exact clear_cart_rows _ uid
  · exact ⟨⟨s.nextOrderId, uid, cart_total (get_cart s uid), "NEW"⟩,
      by simp [clear_cart, order_insert], rfl, rfl⟩
  · show (((s.order_items ++ (get_cart s uid).map fun it =>
        (⟨s.nextOrderId, it.pid, it.qty, it.price⟩ : OrderItemRow)).filter
          (fun it => it.order_id == s.nextOrderId)).map
            (fun it => it.price * it.qty)).sum
        = cart_total (get_cart s uid)
    have h1 : s.order_items.filter
        (fun it => it.order_id == s.nextOrderId) = [] := by
      rw [List.filter_eq_nil_iff]
      intro it hit
      simpa using hfresh it hit
    have h2 : ((get_cart s uid).map fun it =>
          (⟨s.nextOrderId, it.pid, it.qty, it.price⟩ : OrderItemRow)).filter
            (fun it => it.order_id == s.nextOrderId)
        = (get_cart s uid).map fun it =>
            (⟨s.nextOrderId, it.pid, it.qty, it.price⟩ : OrderItemRow) := by
      rw [List.filter_eq_self]
      intro it hit
      simp only [List.mem_map] at hit
      obtain ⟨x, _, rfl⟩ := hit
      simp
    rw [List.filter_append, h1, h2, List.nil_append, List.map_map]
    rfl

/-- C2 witness: user 1's one-item cart in `raceS0`. -/
theorem create_order_checkout_correct_witness :
    get_cart raceS0 1 ≠ []
    ∧ (∀ it ∈ raceS0.order_items, it.order_id ≠ raceS0.nextOrderId)
    ∧ ∃ s3, create_order raceS0 1
        = (some (raceS0.nextOrderId, cart_total (get_cart raceS0 1)), s3)
      ∧ get_cart s3 1 = []
      ∧ s3.cart.filter (fun c => c.user_id == 1) = []
      ∧ (∃ o ∈ s3.orders, o.id = raceS0.nextOrderId
            ∧ o.total_price = cart_total (get_cart raceS0 1))
      ∧ ((s3.order_items.filter
            (fun it => it.order_id == raceS0.nextOrderId)).map
              (fun it => it.price * it.qty)).sum
          = cart_total (get_cart raceS0 1) :=
  ⟨by decide, by decide,
    create_order_checkout_correct raceS0 1 (by decide) (by decide)⟩

/-- C1: with a fully non-null source identity, a second `add_product`
with the same pair returns the same id as the first, inserts nothing
(the product table is unchanged by the second call), and exactly one row
carries that pair afterwards.  `huniq` is the unique-index invariant: at
most one matching row before the calls. -/
theorem add_product_idempotent (s : DBState) (p : Product) (a b : Int)
    (hc : p.source_chat_id = some a) (hm : p.source_msg_id = some b)
    (huniq : (s.products.filter (fun q => srcSelectPred p q)).length ≤ 1) :
    (add_product s p).1 = (add_product (add_product s p).2 p).1
    ∧ (add_product (add_product s p).2 p).2.products
        = (add_product s p).2.products
    ∧ ((add_product (add_product s p).2 p).2.products.filter
          (fun q => srcSelectPred p q)).length = 1 := by
  have hcs : ∀ q, srcConflict p q = srcSelectPred p q :=
    srcConflict_eq_select p a b hc hm
  have hany : s.products.any (fun q => srcConflict p q)
      = s.products.any (fun q => srcSelectPred p q) := by
    simp only [hcs]
  by_cases hA : s.products.any (fun q => srcSelectPred p q) = true
  · -- a row with the pair already exists: both calls resolve to it
    obtain ⟨q, hqmem, hqsel⟩ := List.any_eq_true.mp hA
    obtain ⟨qf, hqf⟩ := Option.isSome_iff_exists.mp
      (List.find?_isSome.mpr ⟨q, hqmem, hqsel⟩)
    have h1 : add_product s p = (qf.id, s) := by
      simp [add_product, hany, hA, hqf]
    have h2 : add_product (add_product s p).2 p = (qf.id, s) := by
      rw [h1]; exact h1
    rw [h2, h1]
    refine ⟨rfl, rfl, ?_⟩
    show (s.products.filter (fun q => srcSelectPred p q)).length = 1
    have hge : 0 < (s.products.filter (fun q => srcSelectPred p q)).length :=
      List.length_pos.mpr (fun hnil =>
        (List.filter_eq_nil_iff.mp hnil q hqmem) hqsel)
    omega
  · -- no row with the pair: the first call inserts, the second resolves
    have hAf : s.products.any (fun q => srcSelectPred p q) = false :=
      Bool.not_eq_true _ ▸ eq_false_of_ne_true hA
    have hfil : s.products.filter (fun q => srcSelectPred p q) = [] := by
      rw [List.filter_eq_nil_iff]
      intro q hq hsel
      exact hA (List.any_eq_true.mpr ⟨q, hq, hsel⟩)
    have hnew : srcSelectPred p { p with id := s.nextProductId } = true := by
      simp [srcSelectPred]
    have h1 : add_product s p =
        (s.nextProductId,
          { s with
            products := s.products ++ [{ p with id := s.nextProductId }],
            nextProductId := s.nextProductId + 1 }) := by
      simp [add_product, hany, hAf]
    have hany2 : (s.products ++ [{ p with id := s.nextProductId }]).any
        (fun q => srcConflict p q) = true := by
      simp only [hcs, List.any_append, hAf]
      simp [hnew]
    have hfind2 : (s.products ++ [{ p with id := s.nextProductId }]).find?
        (fun q => srcSelectPred p q)
        = some { p with id := s.nextProductId } := by
      rw [List.find?_append]
      have : s.products.find? (fun q => srcSelectPred p q) = none := by
        rw [List.find?_eq_none]
        intro x hx hsel
        exact hA (List.any_eq_true.mpr ⟨x, hx, hsel⟩)
      rw [this]
      simp [List.find?, hnew]
    have h2 : add_product (add_product s p).2 p
        = (s.nextProductId, (add_product s p).2) := by
      rw [h1]
      simp only [add_product, hany2, if_true]
      rw [hfind2]
    rw [h2, h1]
    refine ⟨rfl, rfl, ?_⟩
    rw [List.filter_append, hfil, List.nil_append]
    simp [List.filter, hnew]

/-- C1 witness: ingesting the (7, 42) product twice into an empty store. -/
theorem add_product_idempotent_witness :
    specimenProduct.source_chat_id = some 7
    ∧ specimenProduct.source_msg_id = some 42
    ∧ (emptyDB.products.filter
        (fun q => srcSelectPred specimenProduct q)).length ≤ 1
    ∧ ((add_product emptyDB specimenProduct).1
        = (add_product (add_product emptyDB specimenProduct).2
            specimenProduct).1
      ∧ (add_product (add_product emptyDB specimenProduct).2
            specimenProduct).2.products
          = (add_product emptyDB specimenProduct).2.products
      ∧ (((add_product (add_product emptyDB specimenProduct).2
            specimenProduct).2.products.filter
              (fun q => srcSelectPred specimenProduct q)).length = 1)) :=
  ⟨rfl, rfl, by decide,
    add_product_idempotent emptyDB specimenProduct 7 42 rfl rfl (by decide)⟩

/-- C10: when every cart entry of a user is dangling (its product id has
no matching product row), `get_cart` silently excludes them all, so
`create_order` returns `none` as for an empty cart, the store is left
unchanged, and the dangling cart rows remain in the cart table. -/
theorem dangling_cart_rows (s : DBState) (uid : Nat)
    (hdang : ∀ c ∈ s.cart, c.user_id = uid →
      ∀ p ∈ s.products, p.id ≠ c.product_id)
    (hrows : s.cart.filter (fun c => c.user_id == uid) ≠ []) :
    get_cart s uid = [] ∧ create_order s uid = (none, s)
    ∧ (create_order s uid).2.cart.filter (fun c => c.user_id == uid) ≠ [] := by
  have hgc : get_cart s uid = [] := by
    rw [get_cart, List.filterMap_eq_nil_iff]
    intro c hc
    by_cases hu : c.user_id = uid
    · have hfind : s.products.find? (fun p => p.id == c.product_id) = none := by
        rw [List.find?_eq_none]
        intro p hp
        simp [hdang c hc hu p hp]
      simp [hu, hfind]
    · simp [hu]
  have hco := create_order_empty_cart s uid hgc
  exact ⟨hgc, hco, by rw [hco]; exact hrows⟩

/-- C10 witness: the dangling one-entry cart of `danglingDB`. -/
theorem dangling_cart_rows_witness :
    (∀ c ∈ danglingDB.cart, c.user_id = 1 →
      ∀ p ∈ danglingDB.products, p.id ≠ c.product_id)
    ∧ danglingDB.cart.filter (fun c => c.user_id == 1) ≠ []
    ∧ (get_cart danglingDB 1 = []
      ∧ create_order danglingDB 1 = (none, danglingDB)
      ∧ (create_order danglingDB 1).2.cart.filter
          (fun c => c.user_id == 1) ≠ []) :=
  ⟨by decide, by decide, dangling_cart_rows danglingDB 1 (by decide) (by decide)⟩

/-! ### C9: ordering and pagination of `list_products` -/

/-- C9: for a fixed filter and an unchanged catalog with distinct product
ids, every `list_products` page is ordered by id descending, and the
`limit=6, offset=6` page shares no product with the `limit=6, offset=0`
page. -/
theorem list_products_pages (s : DBState) (f : ProductFilter)
    (hids : (s.products.map (fun p => p.id)).Nodup) :
    (∀ off lim, (list_products s f off lim).Pairwise
        (fun a b => b.id ≤ a.id))
    ∧ ∀ p ∈ list_products s f 0 6, p ∉ list_products s f 6 6 := by
  set l := List.insertionSort prodDescId (s.products.filter (rowPass f))
    with hl
  have hsorted : l.Pairwise prodDescId :=
    List.sorted_insertionSort prodDescId (s.products.filter (rowPass f))
  have hnodup : (l.map (fun p => p.id)).Nodup := by
    have hsub : ((s.products.filter (rowPass f)).map (fun p => p.id)).Sublist
        (s.products.map (fun p => p.id)) :=
      (List.filter_sublist s.products).map (fun p => p.id)
    have h1 : ((s.products.filter (rowPass f)).map (fun p => p.id)).Nodup :=
      List.Nodup.sublist hsub hids
    exact ((List.perm_insertionSort prodDescId
      (s.products.filter (rowPass f))).map (fun p => p.id)).symm.nodup h1
  constructor
  · intro off lim
    have hp : ((l.drop off).take lim).Pairwise prodDescId :=
      List.Pairwise.sublist
        ((List.take_sublist lim (l.drop off)).trans (List.drop_sublist off l))
        hsorted
    simpa [list_products, prodDescId, ← hl] using hp
  · intro p hp0 hp1
    simp only [list_products, ← hl] at hp0 hp1
    rw [List.drop_zero] at hp0
    have h0 : p ∈ l.take 6 := hp0
    have h1 : p ∈ l.drop 6 := (List.take_sublist 6 (l.drop 6)).subset hp1
    have hnd : ((l.take 6).map (fun p => p.id) ++
        (l.drop 6).map (fun p => p.id)).Nodup := by
      rw [← List.map_append, List.take_append_drop]
      exact hnodup
    obtain ⟨-, -, hdisj⟩ := List.nodup_append.mp hnd
    exact hdisj (List.mem_map_of_mem (fun p => p.id) h0)
      (List.mem_map_of_mem (fun p => p.id) h1)

/-- C9 witness: the eight-product catalog with the empty filter. -/
theorem list_products_pages_witness :
    (pagingDB.products.map (fun p => p.id)).Nodup
    ∧ ((∀ off lim,
          (list_products pagingDB {} off lim).Pairwise
            (fun a b => b.id ≤ a.id))
        ∧ ∀ p ∈ list_products pagingDB {} 0 6,
            p ∉ list_products pagingDB {} 6 6) :=
  ⟨by decide, list_products_pages pagingDB {} (by decide)⟩

/-! ### C8: `parse_hashtags` and the spec-level tag list -/

/-- A word character is not whitespace. -/
theorem word_not_space (c : Char) (hw : isWordChar c = true) :
    isPySpace c = false := by
  simp only [isWordChar, Bool.or_eq_true, Bool.and_eq_true,
    decide_eq_true_eq] at hw
  simp only [isPySpace, Bool.or_eq_false_iff, decide_eq_false_iff_not]
  omega

/-- Applying `dropWhile` is the identity when no element satisfies the predicate. -/
theorem dropWhile_eq_self_of (p : Char → Bool) (l : List Char)
    (h : ∀ c ∈ l, p c = false) : l.dropWhile p = l := by
  cases l with
  | nil => rfl
  | cons c rest => simp [List.dropWhile_cons, h c (by simp)]

/-- Python `str.strip()` is the identity on a run of word characters. -/
theorem pyStrip_eq_self (t : List Char) (h : t.all isWordChar = true) :
    pyStrip t = t := by
  have hns : ∀ c ∈ t, isPySpace c = false := fun c hc =>
    word_not_space c (List.all_eq_true.mp h c hc)
  rw [pyStrip, dropWhile_eq_self_of _ _ hns,
    dropWhile_eq_self_of _ _ (fun c hc => hns c (List.mem_reverse.mp hc)),
    List.reverse_reverse]

/-- The reverse of a list that is not `isEmpty` is nonempty. -/
theorem rev_ne_nil (t0 : List Char) (h0 : ¬t0.isEmpty = true) :
    t0.reverse ≠ [] := by
  simp only [List.isEmpty_iff] at h0
  simpa [List.reverse_eq_nil_iff] using h0

/-- Every tag emitted by the `findTags` scan is a nonempty run of word
characters (given the invariant on the running accumulator). -/
theorem tagsAux_good (l : List Char) :
    ∀ st : Option (List Char),
      (∀ t0, st = some t0 → t0.all isWordChar = true) →
      ∀ t ∈ tagsAux st l, t ≠ [] ∧ t.all isWordChar = true := by
  induction l with
  | nil =>
    intro st hst t ht
    match st with
    | none => simp [tagsAux] at ht
    | some t0 =>
      rw [tagsAux] at ht
      by_cases h0 : t0.isEmpty
      · rw [if_pos h0] at ht
        simp at ht
      · rw [if_neg h0] at ht
        simp only [List.mem_singleton] at ht
        subst ht
        exact ⟨rev_ne_nil t0 h0, by rw [List.all_reverse]; exact hst t0 rfl⟩
  | cons c rest ih =>
    intro st hst t ht
    match st with
    | none =>
      rw [tagsAux] at ht
      by_cases hc : c = '#'
      · rw [if_pos hc] at ht
        exact ih (some []) (by intro t0 h; cases h; rfl) t ht
      · rw [if_neg hc] at ht
        exact ih none (by intro t0 h; cases h) t ht
    | some t0 =>
      rw [tagsAux] at ht
      by_cases hw : isWordChar c
      · rw [if_pos hw] at ht
        refine ih (some (c :: t0)) ?_ t ht
        intro t1 h1
        cases h1
        simp [List.all_cons, hw, hst t0 rfl]
      · rw [if_neg hw, List.mem_append] at ht
        rcases ht with ht | ht
        · by_cases h0 : t0.isEmpty
          · rw [if_pos h0] at ht
            simp at ht
          · rw [if_neg h0] at ht
            simp only [List.mem_singleton] at ht
            subst ht
            exact ⟨rev_ne_nil t0 h0,
              by rw [List.all_reverse]; exact hst t0 rfl⟩
        · by_cases hc : c = '#'
          · rw [if_pos hc] at ht
            exact ih (some []) (by intro t0' h; cases h; rfl) t ht
          · rw [if_neg hc] at ht
            exact ih none (by intro t0' h; cases h) t ht

/-- Applying `filterMap` degenerates to `map` when the function succeeds on every
member. -/
theorem filterMap_eq_map_of {α β : Type} (f : α → Option β) (g : α → β) :
    ∀ l : List α, (∀ a ∈ l, f a = some (g a)) → l.filterMap f = l.map g := by
  intro l h
  induction l with
  | nil => rfl
  | cons a rest ih =>
    rw [List.filterMap_cons, h a (by simp), List.map_cons,
      ih (fun x hx => h x (by simp [hx]))]

/-- C8: `parse_hashtags` returns exactly the `#`-prefixed word-character
substrings in order of first appearance with duplicates retained (the
per-tag `strip` and truthiness filter of the source never change or drop
a match), and on `"#Shoes #Shoes #Nike"` it yields
`["Shoes", "Shoes", "Nike"]`. -/
theorem parse_hashtags_ordered_dups :
    (∀ s : String, parse_hashtags s = extract_tags_spec s)
    ∧ parse_hashtags "#Shoes #Shoes #Nike" = ["Shoes", "Shoes", "Nike"] := by
  constructor
  · intro s
    by_cases hs : s = ""
    · subst hs
      rfl
    · rw [parse_hashtags, if_neg hs, extract_tags_spec]
      apply filterMap_eq_map_of
      intro t ht
      have hgood := tagsAux_good s.data none (by intro t0 h; cases h) t ht
      have hstrip : pyStrip t = t := pyStrip_eq_self t hgood.2
      simp [hstrip, List.isEmpty_iff, hgood.1]
  · decide
